import Mathlib

/-!
Verification of the topic-resolution engine of the blog-generator repository.

The engine lives in `topic_manager.py` (local scheduled file source),
`sheets_manager.py` (remote CSV table source), `main.py` (CLI entry point)
and `app.py` (HTTP entry points).  Python strings are modelled as lists of
characters (`PyStr`), Python `datetime.date` values as `Date` records, the
process clock as a `Clock` record carrying both the UTC calendar date
(`datetime.utcnow().date()`) and the local calendar date (`date.today()`),
and fallible Python calls as `Except PyError`.
-/

/-- Python strings, modelled as lists of characters. -/
abbrev PyStr := List Char

/-- Python `str.strip()`: drop leading and trailing whitespace. -/
def pyStrip (s : PyStr) : PyStr :=
  ((s.dropWhile Char.isWhitespace).reverse.dropWhile Char.isWhitespace).reverse

/-- Python `line.startswith('#')`. -/
def startsWithHash : PyStr → Bool
  | [] => false
  | c :: _ => c = '#'

/-- Python `line.split('|', 1)` for a line known to contain `'|'`:
the text before the first `'|'` and everything after it. -/
def splitPipeOnce (s : PyStr) : PyStr × PyStr :=
  (s.takeWhile (· != '|'), (s.dropWhile (· != '|')).drop 1)

/-- Python `s.split(sep)` for a single-character separator (empty pieces kept). -/
def splitSep (sep : Char) : PyStr → List PyStr
  | [] => [[]]
  | c :: cs =>
    let r := splitSep sep cs
    if c = sep then [] :: r
    else
      match r with
      | [] => [[c]]
      | p :: ps => (c :: p) :: ps

/-- A Python `datetime.date`: a year/month/day triple. -/
structure Date where
  year : Nat
  month : Nat
  day : Nat
deriving DecidableEq, Repr

/-- Python `date` comparison `a <= b` (lexicographic on year, month, day). -/
def Date.leb (a b : Date) : Bool :=
  if a.year = b.year then
    if a.month = b.month then Nat.ble a.day b.day
    else Nat.blt a.month b.month
  else Nat.blt a.year b.year

/-- Gregorian leap-year rule used by `datetime`. -/
def isLeap (y : Nat) : Bool :=
  y % 4 = 0 && (y % 100 != 0 || y % 400 = 0)

/-- Days in a month, as validated by the `datetime.date` constructor. -/
def daysInMonth (y m : Nat) : Nat :=
  if m = 2 then (if isLeap y then 29 else 28)
  else if m = 4 || m = 6 || m = 9 || m = 11 then 30
  else 31

/-- Numeric value of an all-digit, non-empty character list; `none` otherwise. -/
def digitsVal : PyStr → Option Nat
  | [] => none
  | cs => go cs 0
where
  go : PyStr → Nat → Option Nat
    | [], acc => some acc
    | c :: cs, acc =>
      if c.isDigit then go cs (acc * 10 + (c.toNat - '0'.toNat)) else none

/-- `strptime`'s `%Y` field: exactly four digits. -/
def parseYear4 (s : PyStr) : Option Nat :=
  if s.length = 4 then digitsVal s else none

/-- `strptime`'s `%m` / `%d` fields: one or two digits with value in `[1, hi]`. -/
def parseNum2 (hi : Nat) (s : PyStr) : Option Nat :=
  if s.length = 1 || s.length = 2 then
    (digitsVal s).bind fun v => if 1 ≤ v ∧ v ≤ hi then some v else none
  else none

/-- The `datetime.date(y, m, d)` constructor: validates ranges, else raises
`ValueError` (modelled as `none`). -/
def mkValidDate (y m d : Nat) : Option Date :=
  if 1 ≤ y ∧ y ≤ 9999 ∧ 1 ≤ m ∧ m ≤ 12 ∧ 1 ≤ d ∧ d ≤ daysInMonth y m then
    some ⟨y, m, d⟩
  else none

/-- The four date format patterns tried by the engine, in source order:
`"%Y-%m-%d"`, `"%m/%d/%Y"`, `"%d/%m/%Y"`, `"%Y/%m/%d"`. -/
inductive DateFormat where
  | ymdDash
  | mdy
  | dmy
  | ymdSlash
deriving DecidableEq, Repr

/-- `datetime.strptime(s, fmt).date()` for the four formats used by the engine:
split on the separator, match each field (`%Y` exactly four digits, `%m`/`%d`
one or two digits in range), then validate via the `date` constructor.
`none` models a raised `ValueError`. -/
def strptime (fmt : DateFormat) (s : PyStr) : Option Date :=
  match fmt with
  | .ymdDash =>
    match splitSep '-' s with
    | [ys, ms, ds] =>
      (parseYear4 ys).bind fun y => (parseNum2 12 ms).bind fun m =>
        (parseNum2 31 ds).bind fun d => mkValidDate y m d
    | _ => none
  | .mdy =>
    match splitSep '/' s with
    | [ms, ds, ys] =>
      (parseYear4 ys).bind fun y => (parseNum2 12 ms).bind fun m =>
        (parseNum2 31 ds).bind fun d => mkValidDate y m d
    | _ => none
  | .dmy =>
    match splitSep '/' s with
    | [ds, ms, ys] =>
      (parseYear4 ys).bind fun y => (parseNum2 12 ms).bind fun m =>
        (parseNum2 31 ds).bind fun d => mkValidDate y m d
    | _ => none
  | .ymdSlash =>
    match splitSep '/' s with
    | [ys, ms, ds] =>
      (parseYear4 ys).bind fun y => (parseNum2 12 ms).bind fun m =>
        (parseNum2 31 ds).bind fun d => mkValidDate y m d
    | _ => none

/-- The fixed format list `["%Y-%m-%d", "%m/%d/%Y", "%d/%m/%Y", "%Y/%m/%d"]`
iterated by both managers. -/
def dateFormats : List DateFormat := [.ymdDash, .mdy, .dmy, .ymdSlash]

/-- The inner `for date_format in [...]` loop of both managers: try each
format in order; on the first successful parse, stop (the `break`). -/
def tryFormats : List DateFormat → PyStr → Option Date
  | [], _ => none
  | f :: fs, s =>
    match strptime f s with
    | some d => some d
    | none => tryFormats fs s

/-- Date parsing as performed by the engine: first format that parses wins. -/
def parseDate (s : PyStr) : Option Date :=
  tryFormats dateFormats s

/-- The process clock.  `utcToday` is `datetime.utcnow().date()` and
`localToday` is `date.today()`; the two differ whenever the process timezone
is ahead of or behind UTC across a midnight boundary. -/
structure Clock where
  utcToday : Date
  localToday : Date
deriving DecidableEq, Repr

/-! ## TopicManager (`topic_manager.py`) -/

/-- One topic dictionary built by `TopicManager._load_topics`:
`{'date': ..., 'topic': ..., 'line': ...}`. -/
structure TopicEntry where
  date : PyStr
  topic : PyStr
  line : Nat
deriving DecidableEq, Repr

/-- The line loop of `TopicManager._load_topics` (`topic_manager.py:29-45`),
with `enumerate(f, 1)` line numbers: strip each line, skip empty lines and
`#` comments, and for a line containing `'|'` split once and strip the two
halves.  No emptiness check is made on the halves. -/
def loadTopicsLines : Nat → List PyStr → List TopicEntry
  | _, [] => []
  | n, l :: ls =>
    let line := pyStrip l
    if line.isEmpty || startsWithHash line then loadTopicsLines (n + 1) ls
    else if line.contains '|' then
      let parts := splitPipeOnce line
      { date := pyStrip parts.1, topic := pyStrip parts.2, line := n }
        :: loadTopicsLines (n + 1) ls
    else loadTopicsLines (n + 1) ls

/-- `TopicManager._load_topics`: the topics file is `none` when missing
(`os.path.exists` fails → `[]`), otherwise its list of lines. -/
def loadTopics : Option (List PyStr) → List TopicEntry
  | none => []
  | some ls => loadTopicsLines 1 ls

/-- The in-memory state of a `TopicManager` instance: `self.topics`. -/
structure TMState where
  topics : List TopicEntry
deriving DecidableEq, Repr

/-- `TopicManager.__init__` (`topic_manager.py:12-20`): load the topics file
once and store the result in `self.topics`. -/
def tmInit (file : Option (List PyStr)) : TMState :=
  { topics := loadTopics file }

/-- The entry loop of `get_topic_for_date` (`topic_manager.py:69-84`, also
`sheets_manager.py:90-106`): for each entry, parse its date with the first
succeeding format; if that date equals the target, return the entry's topic,
otherwise (or if no format parses) continue with the next entry. -/
def findTopicForDate (target : Date) : List TopicEntry → Option PyStr
  | [] => none
  | e :: rest =>
    match parseDate e.date with
    | some d => if d = target then some e.topic else findTopicForDate target rest
    | none => findTopicForDate target rest

/-- `TopicManager.get_topic_for_date` with an explicit target date
(`topic_manager.py:49-87`, minus the default-argument clock read). -/
def tmGetTopicForDate (st : TMState) (target : Date) : Option PyStr :=
  if st.topics.isEmpty then none
  else findTopicForDate target st.topics

/-- `TopicManager.get_topic_for_date` including the default argument:
when `target_date` is omitted the code reads `datetime.utcnow().date()`
(`topic_manager.py:59-60`). -/
def tmGetTopicForDateOpt (clock : Clock) (st : TMState) (target : Option Date) :
    Option PyStr :=
  tmGetTopicForDate st (target.getD clock.utcToday)

/-- The future-candidate loop shared by both `get_next_available_topic`
implementations (`topic_manager.py:109-122`): keep `(parsed_date, topic)`
for every entry whose date parses and is `>=` the reference day. -/
def futureTopics (entries : List TopicEntry) (today : Date) :
    List (Date × PyStr) :=
  entries.filterMap fun e =>
    match parseDate e.date with
    | some d => if Date.leb today d then some (d, e.topic) else none
    | none => none

/-- Stable insertion into a date-sorted list (ties keep existing order). -/
def insertByDate (x : Date × PyStr) : List (Date × PyStr) → List (Date × PyStr)
  | [] => [x]
  | y :: ys => if Date.leb x.1 y.1 then x :: y :: ys else y :: insertByDate x ys

/-- Python's stable `future_topics.sort(key=lambda x: x[0])`. -/
def sortByDate : List (Date × PyStr) → List (Date × PyStr)
  | [] => []
  | x :: xs => insertByDate x (sortByDate xs)

/-- `TopicManager.get_next_available_topic` with an explicit reference day
(`topic_manager.py:89-132`): empty topics → `None`; else try today's topic;
else sort the future candidates by date and return the earliest, or `None`
when there is none. -/
def tmNextAvailableOn (today : Date) (st : TMState) : Option PyStr :=
  if st.topics.isEmpty then none
  else
    match tmGetTopicForDate st today with
    | some t => some t
    | none =>
      match sortByDate (futureTopics st.topics today) with
      | [] => none
      | (_, t) :: _ => some t

/-- `TopicManager.get_next_available_topic` as written: the reference day is
`datetime.utcnow().date()` (`topic_manager.py:101`). -/
def tmGetNextAvailableTopic (clock : Clock) (st : TMState) : Option PyStr :=
  tmNextAvailableOn clock.utcToday st

/-- `TopicManager.reset` (`topic_manager.py:138-141`): reload `self.topics`
from the file's current contents. -/
def tmReset (file : Option (List PyStr)) : TMState :=
  { topics := loadTopics file }

/-! ## SheetsManager (`sheets_manager.py`) -/

/-- One row of the fetched CSV table.  A field is `none` when the cell is
missing (`pd.isna`), otherwise the cell text. -/
structure SheetRow where
  dateCell : Option PyStr
  topicCell : Option PyStr
  statusCell : Option PyStr
deriving DecidableEq, Repr

/-- One topic dictionary built by `SheetsManager.get_topics`:
`{'date': ..., 'topic': ..., 'status': ..., 'row': ...}`. -/
structure SheetEntry where
  date : PyStr
  topic : PyStr
  status : PyStr
  row : Nat
deriving DecidableEq, Repr

/-- The row loop of `SheetsManager.get_topics` (`sheets_manager.py:45-59`):
skip rows whose Date or Topic cell is missing, strip the cells, and keep the
row only when both stripped Date and Topic are non-empty. -/
def sheetsRowsToTopics : Nat → List SheetRow → List SheetEntry
  | _, [] => []
  | idx, r :: rs =>
    match r.dateCell, r.topicCell with
    | some dc, some tc =>
      let e : SheetEntry :=
        { date := pyStrip dc, topic := pyStrip tc,
          status := match r.statusCell with
            | some sc => pyStrip sc
            | none => [],
          row := idx + 2 }
      if !e.date.isEmpty && !e.topic.isEmpty then
        e :: sheetsRowsToTopics (idx + 1) rs
      else sheetsRowsToTopics (idx + 1) rs
    | _, _ => sheetsRowsToTopics (idx + 1) rs

/-- `SheetsManager.get_topics` (`sheets_manager.py:24-66`): disabled manager
or failed fetch (`feed = none`, the caught exception path) yields `[]`;
otherwise convert the rows fetched from the CSV URL at this call. -/
def sheetsGetTopics (enabled : Bool) (feed : Option (List SheetRow)) :
    List SheetEntry :=
  if !enabled then []
  else
    match feed with
    | none => []
    | some rows => sheetsRowsToTopics 0 rows

/-- The entry loop of `SheetsManager.get_topic_for_date`
(`sheets_manager.py:90-106`), identical to the local one. -/
def sheetsFindTopicForDate (target : Date) : List SheetEntry → Option PyStr
  | [] => none
  | e :: rest =>
    match parseDate e.date with
    | some d =>
      if d = target then some e.topic else sheetsFindTopicForDate target rest
    | none => sheetsFindTopicForDate target rest

/-- `SheetsManager.get_topic_for_date` with an explicit target date
(`sheets_manager.py:68-109`): re-fetch the topics, then scan for a match.
`feed` is the table the CSV URL serves at this call. -/
def sheetsGetTopicForDate (enabled : Bool) (feed : Option (List SheetRow))
    (target : Date) : Option PyStr :=
  let topics := sheetsGetTopics enabled feed
  if topics.isEmpty then none
  else sheetsFindTopicForDate target topics

/-- `SheetsManager.get_topic_for_date` including the default argument:
when `target_date` is omitted the code reads `date.today()`, the LOCAL
calendar date (`sheets_manager.py:78-79`). -/
def sheetsGetTopicForDateOpt (clock : Clock) (enabled : Bool)
    (feed : Option (List SheetRow)) (target : Option Date) : Option PyStr :=
  sheetsGetTopicForDate enabled feed (target.getD clock.localToday)

/-- The future-candidate loop of `SheetsManager.get_next_available_topic`
(`sheets_manager.py:131-144`). -/
def sheetsFutureTopics (entries : List SheetEntry) (today : Date) :
    List (Date × PyStr) :=
  entries.filterMap fun e =>
    match parseDate e.date with
    | some d => if Date.leb today d then some (d, e.topic) else none
    | none => none

/-- `SheetsManager.get_next_available_topic` with an explicit reference day
(`sheets_manager.py:111-154`): both its own `get_topics()` call and the
nested `get_topic_for_date(today)` re-fetch read the same current feed. -/
def sheetsNextAvailableOn (today : Date) (enabled : Bool)
    (feed : Option (List SheetRow)) : Option PyStr :=
  let topics := sheetsGetTopics enabled feed
  if topics.isEmpty then none
  else
    match sheetsGetTopicForDate enabled feed today with
    | some t => some t
    | none =>
      match sortByDate (sheetsFutureTopics topics today) with
      | [] => none
      | (_, t) :: _ => some t

/-- `SheetsManager.get_next_available_topic` as written: the reference day is
`date.today()`, the LOCAL calendar date (`sheets_manager.py:123`). -/
def sheetsGetNextAvailableTopic (clock : Clock) (enabled : Bool)
    (feed : Option (List SheetRow)) : Option PyStr :=
  sheetsNextAvailableOn clock.localToday enabled feed

/-! ## Entry points (`app.py`, `main.py`) -/

/-- Python exceptions raised by the code paths modelled here. -/
inductive PyError where
  | attributeError (attr : PyStr)
  | typeError (kwarg : PyStr)
  | systemExit (code : Nat)
deriving DecidableEq, Repr

/-- `GET /api/topics/today` (`app.py:131-154`): construct a `TopicManager`,
call its `get_next_available_topic`, and answer 200 with the topic or 404
with `'No topics available'`.  No other topic source is consulted. -/
def getTodayTopic (file : Option (List PyStr)) (clock : Clock) :
    Except PyStr PyStr :=
  match tmGetNextAvailableTopic clock (tmInit file) with
  | some t => .ok t
  | none => .error ("No topics available".toList)

/-- The attribute names defined on the `TopicManager` class
(`topic_manager.py:11-141`): its methods and nothing else. -/
def tmClassAttrs : List PyStr :=
  ["__init__", "_load_topics", "get_topic_for_date",
   "get_next_available_topic", "get_all_topics", "reset"].map String.toList

/-- Python attribute lookup on a `TopicManager` instance: a name not among
the class (or instance) attributes raises `AttributeError`. -/
def tmGetMethod (name : PyStr) : Except PyError PyStr :=
  if tmClassAttrs.contains name then .ok name
  else .error (.attributeError name)

/-- The no-argument branch of `main()` in `main.py:353-375`: construct a
`TopicManager`, then evaluate `topic_manager.get_next_topic()`.  The method
lookup is modelled explicitly; its `.ok` branch is unreachable because the
class defines no `get_next_topic`, so the repository contains no method body
that could be modelled behind it (the fallback exit-1 path at
`main.py:369-373` is therefore also unreachable). -/
def mainNoArgs (_file : Option (List PyStr)) : Except PyError PyStr :=
  match tmGetMethod ("get_next_topic".toList) with
  | .error e => .error e
  | .ok _ => .error (.systemExit 1)

/-- Parameter names accepted by `BlogGenerator.send_email`
(`main.py:242`): `recipient`, `pdf_path`, and the keyword `subject`. -/
def sendEmailParams : List PyStr :=
  ["recipient", "pdf_path", "subject"].map String.toList

/-- A Python call supplying keyword arguments: the first keyword that is not
a declared parameter raises `TypeError` before the body runs. -/
def callWithKwargs (params : List PyStr) (kwargs : List PyStr) :
    Except PyError Unit :=
  match kwargs.find? (fun k => !params.contains k) with
  | some k => .error (.typeError k)
  | none => .ok ()

/-- The keyword arguments passed to `generator.send_email` by the
`POST /api/generate` endpoint (`app.py:91`): `subject` and `s3_url`. -/
def generateEndpointKwargs : List PyStr :=
  ["subject", "s3_url"].map String.toList

/-- The email loop of `POST /api/generate` (`app.py:86-94`): when the
request's `email_list` is non-empty and email is enabled, call `send_email`
per recipient, appending to `emails_sent` on success and swallowing any
exception; otherwise `emails_sent` stays `[]`. -/
def generateEmailsSent (emailEnabled : Bool) (emailList : List PyStr) :
    List PyStr :=
  if !emailList.isEmpty && emailEnabled then
    emailList.foldl
      (fun acc e =>
        match callWithKwargs sendEmailParams generateEndpointKwargs with
        | .ok _ => acc ++ [e]
        | .error _ => acc)
      []
  else []

/-! ## Persisted state and per-call world (for the idempotence and
fresh-read claims) -/

/-- Everything outside process memory that a resolution call could touch:
the topics file, the remote feed and the spec's persisted rotation cursor. -/
structure World where
  topicsFile : Option (List PyStr)
  feed : Option (List SheetRow)
  cursor : Int
deriving DecidableEq, Repr

/-- A "get topic for today" call on a `TopicManager` instance, with the
world threaded through: the method body (`topic_manager.py:49-87`) only
reads `self.topics` and writes nothing, so the world is returned as-is. -/
def tmTodayQueryW (clock : Clock) (st : TMState) (w : World) :
    Option PyStr × World :=
  (tmGetTopicForDateOpt clock st none, w)

/-- A "get topic for today" call on a `SheetsManager`, with the world
threaded through: the body (`sheets_manager.py:68-109`) fetches the feed
from the world at call time and writes nothing. -/
def sheetsTodayQueryW (clock : Clock) (enabled : Bool) (w : World) :
    Option PyStr × World :=
  (sheetsGetTopicForDateOpt clock enabled w.feed none, w)

/-- Construct-then-query after an external file edit: the manager is built
while the file holds `c₀`; the file is then replaced by `c₁`; the query uses
`self.topics`, loaded at construction (`topic_manager.py:20`, `:62-69`), so
`c₁` plays no part. -/
def tmScenario (c₀ : Option (List PyStr)) (_c₁ : Option (List PyStr))
    (d : Date) : Option PyStr :=
  tmGetTopicForDate (tmInit c₀) d

/-- What the fresh-read claim predicts for the same scenario: the entries
consulted reflect the file at query time, i.e. `c₁`. -/
def freshScenario (_c₀ : Option (List PyStr)) (c₁ : Option (List PyStr))
    (d : Date) : Option PyStr :=
  tmGetTopicForDate (tmInit c₁) d

/-- Construct-then-query for the remote source after the feed changed from
`f₀` to `f₁`: `get_topic_for_date` calls `get_topics()`, which fetches the
CSV URL at query time (`sheets_manager.py:36`, `:81`), so it reads `f₁`. -/
def sheetsScenario (_f₀ : Option (List SheetRow)) (f₁ : Option (List SheetRow))
    (enabled : Bool) (d : Date) : Option PyStr :=
  sheetsGetTopicForDate enabled f₁ d

/-! ## Rotation cursor, modelled from the spec -/

/-- Modelled from the spec: no rotation cursor exists in the source
(`main.py:367` calls `TopicManager.get_next_topic`, which no module
defines).  Spec §4.3: `advance(count)` computes
`nextIndex = (lastIndex + 1) mod count`, persists it, and returns it;
precondition `count > 0`. -/
def cursorAdvance (lastIndex : Int) (count : Nat) : Int :=
  (lastIndex + 1) % (count : Int)

/-- Modelled from the spec: rotation resolution (§4.4), absent from the
source.  Load the plain ordered topic list; if empty return NONE without
touching the cursor; else advance the cursor and return the topic at the new
index together with the persisted cursor value. -/
def getNextTopicSpec (topics : List PyStr) (lastIndex : Int) :
    Option PyStr × Int :=
  if topics.isEmpty then (none, lastIndex)
  else
    let idx := cursorAdvance lastIndex topics.length
    (topics.get? idx.toNat, idx)

/-! ## Concrete inputs used by the theorems -/

/-- A clock in a process whose local timezone agrees with UTC. -/
def utcAlignedClock : Clock := ⟨⟨2024, 1, 2⟩, ⟨2024, 1, 2⟩⟩

/-- A clock at the same UTC instant in a timezone still on the previous
local calendar day. -/
def behindUtcClock : Clock := ⟨⟨2024, 1, 2⟩, ⟨2024, 1, 1⟩⟩

/-- A remote feed with a single row dated 2024-01-01. -/
def tzFeed : List SheetRow :=
  [⟨some ("2024-01-01".toList), some ("Local tz topic".toList), none⟩]

/-- A remote feed with a single row dated 2024-01-02. -/
def remoteFeed : List SheetRow :=
  [⟨some ("2024-01-02".toList), some ("Remote topic".toList), none⟩]

/-- The spec's concrete rotation list `["A", "B", "C"]`. -/
def rotationABC : List PyStr := ["A", "B", "C"].map String.toList

/-- The spec's concrete scheduled file with entries on 2024-01-01 and
2024-01-05. -/
def scheduleAB : List PyStr :=
  ["2024-01-01|Topic A".toList, "2024-01-05|Topic B".toList]

/-- A scheduled-file line whose topic half is empty. -/
def emptyTopicFile : List PyStr := ["2024-01-01|".toList]

/-- A remote row with both cells present and non-empty. -/
def sampleSheetRow : SheetRow :=
  ⟨some ("2024-01-05".toList), some ("T".toList), none⟩

/-- The entry `get_topics` builds from `sampleSheetRow`. -/
def sampleSheetEntry : SheetEntry :=
  { date := "2024-01-05".toList, topic := "T".toList, status := [], row := 2 }

/-! ## Helper lemmas -/

lemma tryFormats_eq_findSome (fs : List DateFormat) (s : PyStr) :
    tryFormats fs s = fs.findSome? (fun f => strptime f s) := by
  induction fs with
  | nil => rfl
  | cons f fs ih =>
    simp only [tryFormats, List.findSome?]
    cases strptime f s <;> simp [ih]

lemma mem_futureTopics (entries : List TopicEntry) (today : Date)
    (p : Date × PyStr) :
    p ∈ futureTopics entries today ↔
      ∃ e ∈ entries, parseDate e.date = some p.1 ∧
        Date.leb today p.1 = true ∧ p.2 = e.topic := by
  simp only [futureTopics, List.mem_filterMap]
  constructor
  · rintro ⟨e, he, hfe⟩
    cases hpd : parseDate e.date with
    | none => rw [hpd] at hfe; cases hfe
    | some d =>
      rw [hpd] at hfe
      have hfe' :
          (if Date.leb today d = true then some (d, e.topic) else none) =
            some p := hfe
      by_cases hle : Date.leb today d = true
      · rw [if_pos hle] at hfe'
        injection hfe' with h
        subst h
        exact ⟨e, he, hpd, hle, rfl⟩
      · rw [if_neg hle] at hfe'
        cases hfe'
  · rintro ⟨e, he, hpd, hle, ht⟩
    refine ⟨e, he, ?_⟩
    rw [hpd]
    have hgoal :
        (if Date.leb today p.1 = true then some (p.1, e.topic) else none) =
          some p := by
      rw [if_pos hle, ← ht]
    exact hgoal

lemma sheetsRowsToTopics_valid (rows : List SheetRow) :
    ∀ (idx : Nat) (e : SheetEntry), e ∈ sheetsRowsToTopics idx rows →
      e.topic ≠ [] ∧ e.date ≠ [] := by
  induction rows with
  | nil => intro idx e he; cases he
  | cons r rs ih =>
    intro idx e he
    obtain ⟨dcO, tcO, scO⟩ := r
    cases dcO with
    | none =>
      cases tcO with
      | none => exact ih _ e (by simpa [sheetsRowsToTopics] using he)
      | some tc => exact ih _ e (by simpa [sheetsRowsToTopics] using he)
    | some dc =>
      cases tcO with
      | none => exact ih _ e (by simpa [sheetsRowsToTopics] using he)
      | some tc =>
        simp only [sheetsRowsToTopics] at he
        by_cases hkeep :
            (!(pyStrip dc).isEmpty && !(pyStrip tc).isEmpty) = true
        · rw [if_pos hkeep] at he
          rcases List.mem_cons.mp he with rfl | hmem
          · constructor
            · show pyStrip tc ≠ []
              intro hnil
              rw [hnil] at hkeep
              simp at hkeep
            · show pyStrip dc ≠ []
              intro hnil
              rw [hnil] at hkeep
              simp at hkeep
          · exact ih _ e hmem
        · rw [if_neg hkeep] at he
          exact ih _ e he

/-! ## Claim C1 -/

/-- Claim C1 counterexample: the claim says every omitted-date query uses
the UTC calendar date, so same-UTC-instant invocations agree.  But at one
UTC instant (`utcAlignedClock` vs `behindUtcClock`, equal `utcToday`),
`SheetsManager.get_topic_for_date()` answers differently in the two
timezones, and its omitted-date reference is not the UTC date. -/
theorem c1_counterexample :
    utcAlignedClock.utcToday = behindUtcClock.utcToday
    ∧ sheetsGetTopicForDateOpt behindUtcClock true (some tzFeed) none =
        some ("Local tz topic".toList)
    ∧ sheetsGetTopicForDateOpt utcAlignedClock true (some tzFeed) none = none
    ∧ sheetsGetTopicForDateOpt behindUtcClock true (some tzFeed)
        (some behindUtcClock.utcToday) = none := by
  decide

/-- Claim C1 (amended): `TopicManager`'s omitted-date reference is the
current UTC calendar date (`datetime.utcnow().date()`), for both
`get_topic_for_date` and `get_next_available_topic`; but `SheetsManager`'s
omitted-date reference is the process-local calendar date (`date.today()`),
in both of its resolution methods, so remote-source invocations at the same
UTC instant in different timezones may disagree.  The theorem pins down
which clock field each default reads: the local manager's results depend
only on `utcToday`, the remote manager's only on `localToday`. -/
theorem c1_default_clock_fields :
    ∀ (u u' l l' : Date) (st : TMState) (enabled : Bool)
      (feed : Option (List SheetRow)),
      tmGetTopicForDateOpt ⟨u, l⟩ st none = tmGetTopicForDate st u
      ∧ tmGetNextAvailableTopic ⟨u, l⟩ st = tmGetNextAvailableTopic ⟨u, l'⟩ st
      ∧ sheetsGetTopicForDateOpt ⟨u, l⟩ enabled feed none =
          sheetsGetTopicForDate enabled feed l
      ∧ sheetsGetTopicForDateOpt ⟨u, l⟩ enabled feed none =
          sheetsGetTopicForDateOpt ⟨u', l⟩ enabled feed none
      ∧ sheetsGetNextAvailableTopic ⟨u, l⟩ enabled feed =
          sheetsGetNextAvailableTopic ⟨u', l⟩ enabled feed := by
  intro u u' l l' st enabled feed
  exact ⟨rfl, rfl, rfl, rfl, rfl⟩

/-! ## Claim C2 -/

/-- Claim C2: rotation resolution (modelled from the spec; the source has no
rotation-cursor code, see C9) round-robins over `["A", "B", "C"]` from the
persisted cursor `-1`: four consecutive calls return A, B, C, A with the
cursor persisting 0, 1, 2, 0; and for `count > 0`, `advance` computes
`(lastIndex + 1) mod count`, a value in `[0, count)`. -/
theorem c2_rotation_round_robin :
    (getNextTopicSpec rotationABC (-1) = (some ("A".toList), 0)
     ∧ getNextTopicSpec rotationABC 0 = (some ("B".toList), 1)
     ∧ getNextTopicSpec rotationABC 1 = (some ("C".toList), 2)
     ∧ getNextTopicSpec rotationABC 2 = (some ("A".toList), 0))
    ∧ ∀ (lastIndex : Int) (count : Nat), 0 < count →
        cursorAdvance lastIndex count = (lastIndex + 1) % (count : Int)
        ∧ 0 ≤ cursorAdvance lastIndex count
        ∧ cursorAdvance lastIndex count < (count : Int) := by
  constructor
  · exact ⟨by decide, by decide, by decide, by decide⟩
  · intro lastIndex count h
    have hpos : (0 : Int) < (count : Int) := by exact_mod_cast h
    exact ⟨rfl, Int.emod_nonneg _ (by omega), Int.emod_lt_of_pos _ hpos⟩

/-- Witness for C2: the `count > 0` hypothesis discharged at
`lastIndex = 5`, `count = 3`. -/
theorem c2_witness :
    cursorAdvance 5 3 = (5 + 1) % (3 : Int)
    ∧ 0 ≤ cursorAdvance 5 3 ∧ cursorAdvance 5 3 < (3 : Int) :=
  c2_rotation_round_robin.2 5 3 (by decide)

/-! ## Claim C4 -/

/-- Claim C4 counterexample: the claim says `"03/04/2024"` resolves via
`MM/DD/YYYY` to April 3, 2024.  The `MM/DD/YYYY` reading of `03/04/2024` is
month 3, day 4 — March 4, 2024 — and that is what the parser returns; it
never returns April 3 (the `DD/MM/YYYY` reading). -/
theorem c4_counterexample :
    parseDate ("03/04/2024".toList) = some ⟨2024, 3, 4⟩
    ∧ parseDate ("03/04/2024".toList) ≠ some ⟨2024, 4, 3⟩ := by
  decide

/-- Claim C4 (amended): for every date string, parsing tries the formats
`YYYY-MM-DD`, `MM/DD/YYYY`, `DD/MM/YYYY`, `YYYY/MM/DD` in that order and
returns the first successful parse; `"03/04/2024"` resolves via
`MM/DD/YYYY` to March 4, 2024 (not via `DD/MM/YYYY`, whose reading would be
April 3); a string matching no format yields NONE. -/
theorem c4_parse_order :
    (∀ s : PyStr, parseDate s = dateFormats.findSome? (fun f => strptime f s))
    ∧ parseDate ("03/04/2024".toList) = strptime .mdy ("03/04/2024".toList)
    ∧ strptime .mdy ("03/04/2024".toList) = some ⟨2024, 3, 4⟩
    ∧ strptime .dmy ("03/04/2024".toList) = some ⟨2024, 4, 3⟩
    ∧ ∀ s : PyStr, (∀ f ∈ dateFormats, strptime f s = none) →
        parseDate s = none := by
  refine ⟨fun s => tryFormats_eq_findSome dateFormats s, by decide, by decide,
    by decide, ?_⟩
  intro s h
  have h1 := h .ymdDash (by decide)
  have h2 := h .mdy (by decide)
  have h3 := h .dmy (by decide)
  have h4 := h .ymdSlash (by decide)
  simp [parseDate, dateFormats, tryFormats, h1, h2, h3, h4]

/-- Witness for C4: the all-formats-fail hypothesis discharged at the
concrete unparseable string `"next monday"`. -/
theorem c4_witness : parseDate ("next monday".toList) = none :=
  c4_parse_order.2.2.2.2 ("next monday".toList) (by decide)

/-! ## Claim C3 -/

/-- Claim C3 counterexample: the claim says the combined flow attempts
remote dated resolution first and reports "no topic available" only after
remote, local and rotation all yield NONE.  At a state where the remote
source has a topic for today and the local file is empty, the entry point
(`GET /api/topics/today`) still reports "No topics available": it never
consults the remote source. -/
theorem c3_counterexample :
    sheetsGetNextAvailableTopic utcAlignedClock true (some remoteFeed) =
      some ("Remote topic".toList)
    ∧ getTodayTopic (some []) utcAlignedClock =
        .error ("No topics available".toList)
    ∧ getTodayTopic none utcAlignedClock =
        .error ("No topics available".toList) :=
  ⟨by decide, rfl, rfl⟩

/-- Claim C3 (amended): the highest-level entry point
(`GET /api/topics/today`, aliased by `/api/topics/next`) performs only local
dated resolution via `TopicManager.get_next_available_topic`: whenever the
local scheduled file contains an entry dated today it returns that entry's
topic, and when local resolution yields NONE it reports "No topics
available"; remote dated resolution and rotation are never attempted (the
other entry point, `main()` without arguments, crashes before resolving —
see C9). -/
theorem c3_local_only :
    ∀ (file : Option (List PyStr)) (clock : Clock) (t : PyStr),
      (tmGetTopicForDate (tmInit file) clock.utcToday = some t →
        getTodayTopic file clock = .ok t)
      ∧ (tmGetNextAvailableTopic clock (tmInit file) = none →
        getTodayTopic file clock = .error ("No topics available".toList)) := by
  intro file clock t
  constructor
  · intro h
    have hne : (tmInit file).topics.isEmpty = false := by
      cases hE : (tmInit file).topics.isEmpty
      · rfl
      · exfalso
        unfold tmGetTopicForDate at h
        rw [hE] at h
        simp at h
    simp [getTodayTopic, tmGetNextAvailableTopic, tmNextAvailableOn, hne, h]
  · intro h
    simp [getTodayTopic, h]

/-- Witness for C3: both hypotheses discharged at concrete states — a file
with today's entry, and an empty file. -/
theorem c3_witness :
    getTodayTopic (some ["2024-01-02|Local topic".toList]) utcAlignedClock =
      .ok ("Local topic".toList)
    ∧ getTodayTopic (some []) utcAlignedClock =
        .error ("No topics available".toList) :=
  ⟨(c3_local_only (some ["2024-01-02|Local topic".toList]) utcAlignedClock
      ("Local topic".toList)).1 (by decide),
   (c3_local_only (some []) utcAlignedClock []).2 (by decide)⟩

/-! ## Claim C5 -/

/-- Claim C5: dated resolution is idempotent — for a fixed reference day
and unchanged source data, two consecutive "get topic for today" calls (on
the local manager, and on the remote manager, whose fetch reads the world's
feed at call time) return the same topic or both NONE, and leave the entire
persisted world, including the rotation cursor, unchanged. -/
theorem c5_idempotent :
    ∀ (clock : Clock) (st : TMState) (enabled : Bool) (w : World),
      (tmTodayQueryW clock st w).1 =
        (tmTodayQueryW clock st (tmTodayQueryW clock st w).2).1
      ∧ (tmTodayQueryW clock st w).2 = w
      ∧ (sheetsTodayQueryW clock enabled w).1 =
          (sheetsTodayQueryW clock enabled
            (sheetsTodayQueryW clock enabled w).2).1
      ∧ (sheetsTodayQueryW clock enabled w).2 = w
      ∧ ((sheetsTodayQueryW clock enabled w).2).cursor = w.cursor := by
  intro clock st enabled w
  exact ⟨rfl, rfl, rfl, rfl, rfl⟩

/-! ## Claim C6 -/

/-- Claim C6: with the topics file `2024-01-01|Topic A`,
`2024-01-05|Topic B`, dated resolution at reference date 2024-01-03 returns
"Topic B" (earliest future candidate after sorting by parsed date) and at
2024-01-01 returns "Topic A" (exact match); and in general the
future-candidate set contains exactly the entries whose date parses and is
`>=` the reference date. -/
theorem c6_nearest_future :
    tmGetNextAvailableTopic ⟨⟨2024, 1, 3⟩, ⟨2024, 1, 3⟩⟩
        (tmInit (some scheduleAB)) = some ("Topic B".toList)
    ∧ tmGetNextAvailableTopic ⟨⟨2024, 1, 1⟩, ⟨2024, 1, 1⟩⟩
        (tmInit (some scheduleAB)) = some ("Topic A".toList)
    ∧ ∀ (entries : List TopicEntry) (today : Date) (p : Date × PyStr),
        p ∈ futureTopics entries today ↔
          ∃ e ∈ entries, parseDate e.date = some p.1 ∧
            Date.leb today p.1 = true ∧ p.2 = e.topic :=
  ⟨by decide, by decide, mem_futureTopics⟩

/-! ## Claim C7 -/

/-- Claim C7 counterexample: the claim says both loaders discard entries
with an empty topic.  `TopicManager._load_topics` on the single line
`"2024-01-01|"` produces an entry whose topic is empty, so the claimed
load-time invariant fails for the local file source. -/
theorem c7_counterexample :
    loadTopics (some emptyTopicFile) =
      [{ date := "2024-01-01".toList, topic := [], line := 1 }]
    ∧ ¬ (∀ e ∈ loadTopics (some emptyTopicFile), pyStrip e.topic ≠ []) := by
  decide

/-- Claim C7 (amended): the load-time validation invariant holds only for
the remote table source — every entry produced by `SheetsManager.get_topics`
has a non-empty (trimmed) topic and a non-empty date — while
`TopicManager._load_topics` performs no such check: any non-empty,
non-comment line containing `'|'` yields an entry, even when its topic or
date half is empty. -/
theorem c7_load_validation :
    (∀ (enabled : Bool) (feed : Option (List SheetRow)) (e : SheetEntry),
      e ∈ sheetsGetTopics enabled feed → e.topic ≠ [] ∧ e.date ≠ [])
    ∧ loadTopics (some ["2024-01-01|".toList, "|Topic C".toList]) =
        [{ date := "2024-01-01".toList, topic := [], line := 1 },
         { date := [], topic := "Topic C".toList, line := 2 }] := by
  constructor
  · intro enabled feed e he
    cases enabled with
    | false => simp [sheetsGetTopics] at he
    | true =>
      cases feed with
      | none => simp [sheetsGetTopics] at he
      | some rows =>
        have he' : e ∈ sheetsRowsToTopics 0 rows := by
          simpa [sheetsGetTopics] using he
        exact sheetsRowsToTopics_valid rows 0 e he'
  · decide

/-- Witness for C7: the membership hypothesis discharged at a concrete
feed and entry. -/
theorem c7_witness : sampleSheetEntry.topic ≠ [] ∧ sampleSheetEntry.date ≠ [] :=
  c7_load_validation.1 true (some [sampleSheetRow]) sampleSheetEntry (by decide)

/-! ## Claim C8 -/

/-- Claim C8 counterexample: the claim says every query consults the
underlying file as it is at query time.  Construct a `TopicManager` while
the file holds `2024-01-01|Topic A`, replace the file with an empty one,
then query for 2024-01-01: the code answers "Topic A" from the snapshot
loaded at construction, while a fresh read of the current file would answer
NONE. -/
theorem c8_counterexample :
    tmScenario (some ["2024-01-01|Topic A".toList]) (some []) ⟨2024, 1, 1⟩ =
      some ("Topic A".toList)
    ∧ freshScenario (some ["2024-01-01|Topic A".toList]) (some [])
        ⟨2024, 1, 1⟩ = none := by
  decide

/-- Claim C8 (amended): only the remote source re-reads on every call —
`SheetsManager` queries fetch the feed at query time, so they reflect the
feed's current contents.  `TopicManager` loads its file once at
construction; queries consult that snapshot regardless of later file
changes, and the current file contents become authoritative only after
`reset()` reloads them. -/
theorem c8_read_points :
    ∀ (c₀ c₁ : Option (List PyStr)) (f₀ f₁ : Option (List SheetRow))
      (enabled : Bool) (d : Date),
      tmScenario c₀ c₁ d = tmGetTopicForDate (tmInit c₀) d
      ∧ tmGetTopicForDate (tmReset c₁) d = freshScenario c₀ c₁ d
      ∧ sheetsScenario f₀ f₁ enabled d = sheetsGetTopicForDate enabled f₁ d := by
  intro c₀ c₁ f₀ f₁ enabled d
  exact ⟨rfl, rfl, rfl⟩

/-! ## Claim C10 -/

lemma generate_foldl_keeps (l : List PyStr) (acc : List PyStr) :
    l.foldl
      (fun acc e =>
        match callWithKwargs sendEmailParams generateEndpointKwargs with
        | .ok _ => acc ++ [e]
        | .error _ => acc) acc = acc := by
  induction l generalizing acc with
  | nil => rfl
  | cons a as ih =>
    have hk : callWithKwargs sendEmailParams generateEndpointKwargs =
        Except.error (.typeError ("s3_url".toList)) := rfl
    simp only [List.foldl, hk]
    exact ih acc

/-- Claim C10: in `POST /api/generate`, for every non-empty `email_list`
with email enabled, each per-recipient `send_email(..., s3_url=...)` call
raises `TypeError` (the method accepts no `s3_url` parameter), the
exception is caught per recipient, and the response's `emails_sent` list is
therefore always empty. -/
theorem c10_emails_sent_empty :
    ∀ emailList : List PyStr, emailList ≠ [] →
      callWithKwargs sendEmailParams generateEndpointKwargs =
        .error (.typeError ("s3_url".toList))
      ∧ generateEmailsSent true emailList = [] := by
  intro l h
  refine ⟨rfl, ?_⟩
  cases l with
  | nil => exact absurd rfl h
  | cons a as =>
    have hk : callWithKwargs sendEmailParams generateEndpointKwargs =
        Except.error (.typeError ("s3_url".toList)) := rfl
    simp [generateEmailsSent, generate_foldl_keeps, hk]

/-- Witness for C10: the non-empty-list hypothesis discharged at a
one-recipient list. -/
theorem c10_witness :
    callWithKwargs sendEmailParams generateEndpointKwargs =
      .error (.typeError ("s3_url".toList))
    ∧ generateEmailsSent true ["a@example.com".toList] = [] :=
  c10_emails_sent_empty ["a@example.com".toList] (by decide)

/-! ## Claim C9 -/

/-- Claim C9: `main()` with no command-line arguments constructs a
`TopicManager` and calls `topic_manager.get_next_topic()`; the class defines
no such attribute, so for every topics-file state the call raises
`AttributeError` before any topic is returned or article generated. -/
theorem c9_get_next_topic_missing :
    ∀ file : Option (List PyStr),
      mainNoArgs file = .error (.attributeError ("get_next_topic".toList))
      ∧ tmGetMethod ("get_next_topic".toList) =
          .error (.attributeError ("get_next_topic".toList)) := by
  intro file
  exact ⟨rfl, rfl⟩
